import Mathlib

/-!
Verification of the lot allocation-and-confirmation engine of the
cotton sales platform: the selection engine (`auto-select-lots`), the
draft manager (`save-draft`, `manual-lot-selection`), the assignment
state machine (`accept` / `reject` routes), the auto-expiry block of the
customer lots listing, and the confirmation trigger
(`checkAndTriggerConfirmation`).  All definitions are shallow embeddings
of the JavaScript route handlers; dates are day ordinals (YYYY-MM-DD
strings compare lexicographically in calendar order), money and
quantities are naturals.
-/

namespace Katha

/-- Claim state of an inventory lot (`inventory_table.status`). -/
inductive LotStatus
  | available
  | blocked
  | sold
  deriving DecidableEq

/-- Status of a customer assignment (`customer_assignment_table.lot_status`). -/
inductive AsgStatus
  | pending
  | accepted
  | rejected
  | expired
  deriving DecidableEq

/-- A wall-clock instant: calendar day ordinal plus seconds within the day.
`new Date().toISOString().split('T')[0]` keeps only the `day` component. -/
structure Time where
  day : Nat
  sec : Nat
  deriving DecidableEq

/-- The calendar-date component of the current time, as compared by the
route handlers (`currentDate > assignment.window_end_date` on YYYY-MM-DD
strings is calendar-order comparison, modelled on day ordinals). -/
def currentDateOf (t : Time) : Nat := t.day

/-- An inventory lot (row of `inventory_table`). -/
structure Lot where
  id : Nat
  status : LotStatus
  branch : Nat
  variety : Nat
  fibreLength : Nat
  bidPrice : Nat
  createdAt : Nat
  indentNumber : Nat
  lotNumber : Nat
  deriving DecidableEq

/-- The `line_specs` filters of a sales configuration. -/
structure LineSpecs where
  fibreLength : Option Nat
  variety : Option Nat
  deriving DecidableEq

/-- A sales order configuration (row of `sales_configuration`). -/
structure SalesConfig where
  id : Nat
  customerId : Nat
  requestedQuantity : Nat
  lineSpecs : Option LineSpecs
  priorityBranch : Option Nat
  brokerCommissionRate : Nat
  status : String
  deriving DecidableEq

/-- A sales draft record (row of `sales_table`). -/
structure SalesRecord where
  id : Nat
  salesConfigId : Nat
  totalBales : Nat
  totalValue : Nat
  brokerCommission : Nat
  status : String
  createdBy : Nat
  deriving DecidableEq

/-- A per-lot selection record (row of `lot_selected_contract`). -/
structure LotSelection where
  salesId : Nat
  inventoryId : Nat
  lotNumber : Nat
  indentNumber : Nat
  quantity : Nat
  price : Nat
  status : String
  deriving DecidableEq

/-- A customer assignment (row of `customer_assignment_table`). -/
structure Assignment where
  id : Nat
  customerId : Nat
  inventoryId : Nat
  salesId : Nat
  lotStatus : AsgStatus
  windowEndDate : Nat
  respondedBy : Option Nat
  respondedAt : Option Time
  deriving DecidableEq

/-- A customer identity record (row of `customer_info`). -/
structure Customer where
  id : Nat
  email : Nat
  deriving DecidableEq

/-- The authenticated user attached to a request. -/
structure User where
  id : Nat
  role : String
  email : Nat
  deriving DecidableEq

/-- An audit-log insertion (row of `audit_log`, reduced to the fields the
handlers always set). -/
structure AuditEntry where
  tableName : String
  action : String
  userId : Nat
  deriving DecidableEq

/-- An outbound n8n webhook call. -/
inductive Event
  | draftWebhook (salesId : Nat)
  | confirmationWebhook (salesId : Nat) (acceptedLots requiredQuantity : Nat)
  deriving DecidableEq

/-- Whether an event is the lot-acceptance confirmation webhook for the
given sales order. -/
def Event.isConfirmFor (sid : Nat) : Event → Bool
  | Event.confirmationWebhook s _ _ => s = sid
  | _ => false

/-- The record store the route handlers read and write. -/
structure DbState where
  lots : List Lot
  salesConfigs : List SalesConfig
  salesRecords : List SalesRecord
  lotSelections : List LotSelection
  assignments : List Assignment
  customers : List Customer
  audit : List AuditEntry
  events : List Event
  nextSalesId : Nat
  deriving DecidableEq

/-- The buffer `Math.floor(base * 0.2)` from the auto-select limit computation, in
exact arithmetic: the floor of `base * 2⁄10` is natural division `base * 2 / 10`. -/
def extraOf (base : Nat) : Nat := base * 2 / 10

/-- The ceiling `maxLimit = base + extra` from the auto-select limit computation. -/
def maxLimitOf (base : Nat) : Nat := base + extraOf base

/-- Whether a lot passes the optional `line_specs` filters of the
auto-select query (`fibre_length`, `variety`). -/
def matchesSpecs (specs : Option LineSpecs) (l : Lot) : Bool :=
  match specs with
  | none => true
  | some sp =>
    (match sp.fibreLength with | none => true | some f => l.fibreLength = f) &&
    (match sp.variety with | none => true | some v => l.variety = v)

/-- Whether a lot passes the optional `priority_branch` restriction of the
auto-select query. -/
def matchesBranch (priorityBranch : Option Nat) (l : Lot) : Bool :=
  match priorityBranch with
  | none => true
  | some b => l.branch = b

/-- Insert a lot into a list sorted by intake timestamp. -/
def insertByCreated (l : Lot) : List Lot → List Lot
  | [] => [l]
  | x :: xs => if l.createdAt ≤ x.createdAt then l :: x :: xs else x :: insertByCreated l xs

/-- Sort lots by intake timestamp ascending
(`order('created_at', { ascending: true })` — FIFO). -/
def sortByCreated : List Lot → List Lot
  | [] => []
  | x :: xs => insertByCreated x (sortByCreated xs)

/-- The auto-select inventory query: AVAILABLE lots passing the spec and
priority-branch filters, FIFO-ordered by intake timestamp. -/
def candidateLots (lots : List Lot) (cfg : SalesConfig) : List Lot :=
  sortByCreated (lots.filter (fun l =>
    l.status = LotStatus.available &&
    matchesSpecs cfg.lineSpecs l &&
    matchesBranch cfg.priorityBranch l))

/-- Response of `POST /api/sales/auto-select-lots`. -/
structure AutoSelectResult where
  outOfStock : Bool
  availableLots : List Lot
  autoSelected : List Lot
  requested : Nat
  maxAllowed : Nat
  totalValue : Nat
  deriving DecidableEq

/-- The lots returned by the auto-select inventory query: the candidates,
limited to `maxLimit` rows (`.limit(maxLimit)`). -/
def queryLots (lots : List Lot) (cfg : SalesConfig) (requestedQty : Nat) : List Lot :=
  (candidateLots lots cfg).take (maxLimitOf requestedQty)

/-- The default selection: `availableLots.slice(0, Math.min(maxLimit,
availableLots.length))`. -/
def autoSelectedOf (lots : List Lot) (cfg : SalesConfig) (requestedQty : Nat) : List Lot :=
  (queryLots lots cfg requestedQty).take
    (min (maxLimitOf requestedQty) (queryLots lots cfg requestedQty).length)

/-- Handler for `POST /api/sales/auto-select-lots`: compute `maxLimit`, query available
lots limited to `maxLimit`, report `out_of_stock` when the query is empty,
otherwise select the first `min(maxLimit, available.length)` lots. -/
def autoSelectLots (lots : List Lot) (cfg : SalesConfig) (requestedQty : Nat) : AutoSelectResult :=
  if (queryLots lots cfg requestedQty).isEmpty then
    { outOfStock := true, availableLots := [], autoSelected := [],
      requested := requestedQty, maxAllowed := maxLimitOf requestedQty, totalValue := 0 }
  else
    { outOfStock := false,
      availableLots := queryLots lots cfg requestedQty,
      autoSelected := autoSelectedOf lots cfg requestedQty,
      requested := requestedQty, maxAllowed := maxLimitOf requestedQty,
      totalValue := (autoSelectedOf lots cfg requestedQty).foldl (fun s l => s + l.bidPrice) 0 }

/-- Outcome of `POST /api/sales/save-draft`.  The handler has no
availability check and no conflict outcome: the only failure on the lot
path is a missing sales configuration. -/
inductive SaveDraftResult
  | configNotFound
  | ok (salesRecordId : Nat) (blockedLots : Nat)
  deriving DecidableEq

/-- Handler for `POST /api/sales/save-draft`: fetch the configuration and the selected
lots (`.in('id', selected_lots)`, with no status filter), insert a
`sales_table` row with status `DRAFT` and one `lot_selected_contract` row
per lot with status `SELECTED`, set every selected lot's inventory status
to `BLOCKED` unconditionally, set the configuration status to
`processing`, write the audit row and fire the draft webhook. -/
def saveDraft (s : DbState) (salesConfigId : Nat) (selectedLots : List Nat) (userId : Nat) :
    DbState × SaveDraftResult :=
  match s.salesConfigs.find? (fun c => c.id = salesConfigId) with
  | none => (s, SaveDraftResult.configNotFound)
  | some cfg =>
    let lots := s.lots.filter (fun l => selectedLots.contains l.id)
    let totalBales := lots.length
    let totalValue := lots.foldl (fun a l => a + l.bidPrice) 0
    let draft : SalesRecord :=
      { id := s.nextSalesId, salesConfigId := salesConfigId,
        totalBales := totalBales, totalValue := totalValue,
        brokerCommission := totalValue * cfg.brokerCommissionRate / 100,
        status := "DRAFT", createdBy := userId }
    let sels := lots.map (fun l =>
      { salesId := draft.id, inventoryId := l.id, lotNumber := l.lotNumber,
        indentNumber := l.indentNumber, quantity := 1, price := l.bidPrice,
        status := "SELECTED" : LotSelection })
    ({ s with
        salesRecords := s.salesRecords ++ [draft],
        lotSelections := s.lotSelections ++ sels,
        lots := s.lots.map (fun l =>
          if selectedLots.contains l.id then { l with status := LotStatus.blocked } else l),
        salesConfigs := s.salesConfigs.map (fun c =>
          if c.id = salesConfigId then { c with status := "processing" } else c),
        audit := s.audit ++ [{ tableName := "sales_table", action := "SALES_DRAFT_CREATED", userId := userId }],
        events := s.events ++ [Event.draftWebhook draft.id],
        nextSalesId := s.nextSalesId + 1 },
     SaveDraftResult.ok draft.id lots.length)

/-- Outcome of `POST /api/sales/manual-lot-selection`. -/
inductive ManualSelectResult
  | configNotFound
  | insufficient (selectedCount required : Nat)
  | ok (selectedCount : Nat)
  deriving DecidableEq

/-- Handler for `POST /api/sales/manual-lot-selection`: fetch the selected lots that
are still AVAILABLE and reject when fewer than `requested_quantity`. -/
def manualLotSelection (s : DbState) (salesConfigId : Nat) (selectedLots : List Nat) :
    ManualSelectResult :=
  match s.salesConfigs.find? (fun c => c.id = salesConfigId) with
  | none => ManualSelectResult.configNotFound
  | some cfg =>
    let lots := s.lots.filter (fun l =>
      selectedLots.contains l.id && l.status = LotStatus.available)
    if lots.length < cfg.requestedQuantity then
      ManualSelectResult.insufficient lots.length cfg.requestedQuantity
    else
      ManualSelectResult.ok lots.length

/-- The confirmation trigger `checkAndTriggerConfirmation`: look up the sales record and its
configuration, count ACCEPTED assignments of the sales order, and when the
count reaches `requested_quantity` fire the confirmation webhook and write
the audit row.  There is no check that the draft is still `DRAFT` and no
status transition of the draft or the order. -/
def checkAndTriggerConfirmation (s : DbState) (salesId : Nat) (userId : Nat) : DbState :=
  match s.salesRecords.find? (fun r => r.id = salesId) with
  | none => s
  | some salesInfo =>
    match s.salesConfigs.find? (fun c => c.id = salesInfo.salesConfigId) with
    | none => s
    | some cfg =>
      if cfg.requestedQuantity ≤
          (s.assignments.filter (fun a =>
            a.salesId = salesId && a.lotStatus = AsgStatus.accepted)).length then
        { s with
            events := s.events ++ [Event.confirmationWebhook salesId
              (s.assignments.filter (fun a =>
                a.salesId = salesId && a.lotStatus = AsgStatus.accepted)).length
              cfg.requestedQuantity],
            audit := s.audit ++ [{ tableName := "sales_table", action := "CONFIRMATION_SENT", userId := userId }] }
      else s

/-- Resolve the customer identity bound to the request: the user's own id
for the `customer` role, otherwise the `customer_info` row matching the
user's email. -/
def resolveCustomerId (s : DbState) (u : User) : Option Nat :=
  if u.role = "customer" then some u.id
  else (s.customers.find? (fun c => c.email = u.email)).map (fun c => c.id)

/-- Outcome of `POST /api/customer/accept` and `POST /api/customer/reject`. -/
inductive RespondResult
  | notFound
  | forbidden
  | windowExpired
  | alreadyResolved
  | ok
  deriving DecidableEq

/-- The database writes of a successful accept: assignment to `ACCEPTED`
with responder and timestamp, inventory to `SOLD`, audit row. -/
def applyAccept (s : DbState) (assignmentId : Nat) (asg : Assignment) (u : User) (now : Time) :
    DbState :=
  { s with
      assignments := s.assignments.map (fun a =>
        if a.id = assignmentId then
          { a with lotStatus := AsgStatus.accepted, respondedBy := some u.id, respondedAt := some now }
        else a),
      lots := s.lots.map (fun l =>
        if l.id = asg.inventoryId then { l with status := LotStatus.sold } else l),
      audit := s.audit ++ [{ tableName := "customer_assignment_table", action := "ACCEPTED", userId := u.id }] }

/-- The database writes of a successful reject: assignment to `REJECTED`
with responder and timestamp, inventory back to `AVAILABLE`, audit row. -/
def applyReject (s : DbState) (assignmentId : Nat) (asg : Assignment) (u : User) (now : Time) :
    DbState :=
  { s with
      assignments := s.assignments.map (fun a =>
        if a.id = assignmentId then
          { a with lotStatus := AsgStatus.rejected, respondedBy := some u.id, respondedAt := some now }
        else a),
      lots := s.lots.map (fun l =>
        if l.id = asg.inventoryId then { l with status := LotStatus.available } else l),
      audit := s.audit ++ [{ tableName := "customer_assignment_table", action := "REJECTED", userId := u.id }] }

/-- Handler for `POST /api/customer/accept`: not-found, ownership, window and
already-responded checks in that order; on success apply the accept
writes and invoke the confirmation trigger for the assignment's order. -/
def acceptLot (s : DbState) (assignmentId : Nat) (u : User) (now : Time) :
    DbState × RespondResult :=
  match s.assignments.find? (fun a => a.id = assignmentId) with
  | none => (s, RespondResult.notFound)
  | some asg =>
    if resolveCustomerId s u ≠ some asg.customerId then (s, RespondResult.forbidden)
    else if asg.windowEndDate < currentDateOf now then (s, RespondResult.windowExpired)
    else if asg.lotStatus ≠ AsgStatus.pending then (s, RespondResult.alreadyResolved)
    else
      (checkAndTriggerConfirmation (applyAccept s assignmentId asg u now) asg.salesId u.id,
       RespondResult.ok)

/-- Handler for `POST /api/customer/reject`: the same checks as accept; on success
apply the reject writes.  The confirmation trigger is never invoked. -/
def rejectLot (s : DbState) (assignmentId : Nat) (u : User) (now : Time) :
    DbState × RespondResult :=
  match s.assignments.find? (fun a => a.id = assignmentId) with
  | none => (s, RespondResult.notFound)
  | some asg =>
    if resolveCustomerId s u ≠ some asg.customerId then (s, RespondResult.forbidden)
    else if asg.windowEndDate < currentDateOf now then (s, RespondResult.windowExpired)
    else if asg.lotStatus ≠ AsgStatus.pending then (s, RespondResult.alreadyResolved)
    else (applyReject s assignmentId asg u now, RespondResult.ok)

/-- The `expiredAssignments` bucket of the `GET /api/customer/lots`
categorisation: the customer's PENDING assignments whose window end date
is before the current date. -/
def expiredOf (s : DbState) (customerId : Nat) (now : Time) : List Assignment :=
  s.assignments.filter (fun a =>
    a.customerId = customerId && a.lotStatus = AsgStatus.pending &&
    a.windowEndDate < currentDateOf now)

/-- The auto-expire block of `GET /api/customer/lots`: the customer's
PENDING assignments whose window end date is before the current date are
set to `EXPIRED` with a response timestamp, and their lots back to
`AVAILABLE`. -/
def sweepExpire (s : DbState) (customerId : Nat) (now : Time) : DbState :=
  { s with
      assignments := s.assignments.map (fun a =>
        if ((expiredOf s customerId now).map (fun e => e.id)).contains a.id then
          { a with lotStatus := AsgStatus.expired, respondedAt := some now }
        else a),
      lots := s.lots.map (fun l =>
        if ((expiredOf s customerId now).map (fun e => e.inventoryId)).contains l.id then
          { l with status := LotStatus.available }
        else l) }

/-- The `active` bucket of the `GET /api/customer/lots` categorisation:
the customer's assignments that are PENDING and within the window
(`currentDate <= window_end_date`). -/
def listingActive (s : DbState) (customerId : Nat) (now : Time) : List Assignment :=
  (s.assignments.filter (fun a => a.customerId = customerId)).filter (fun a =>
    a.lotStatus = AsgStatus.pending && currentDateOf now ≤ a.windowEndDate)

/-! ### Demonstration fixtures -/

/-- A matching AVAILABLE lot with the given id. -/
def demoLot (i : Nat) : Lot :=
  { id := i, status := LotStatus.available, branch := 1, variety := 1, fibreLength := 1,
    bidPrice := 10, createdAt := i, indentNumber := 1, lotNumber := i }

/-- Forty-five AVAILABLE lots matching every filter. -/
def demoLots45 : List Lot := (List.range 45).map demoLot

/-- A sales configuration requesting 50 lots, with no spec filters and no
priority branch. -/
def demoConfig : SalesConfig :=
  { id := 1, customerId := 5, requestedQuantity := 50, lineSpecs := none,
    priorityBranch := none, brokerCommissionRate := 2, status := "pending" }

/-! ### Claim C7 -/

/-- Claim C7: for every requested quantity `q ≥ 1` the auto-select route
computes `extra = floor(q * 0.20)` and `maxAllowed = q + extra`, and the
auto-selected count never exceeds `maxAllowed`; concretely `q = 100` gives
`extra = 20` so a ceiling of `120`. -/
theorem autoSelect_selection_ceiling (lots : List Lot) (cfg : SalesConfig) (q : Nat)
    (hq : 1 ≤ q) :
    maxLimitOf q = q + extraOf q ∧
    (autoSelectLots lots cfg q).autoSelected.length ≤ q + extraOf q ∧
    extraOf 100 = 20 ∧ maxLimitOf 100 = 120 := by
  refine ⟨rfl, ?_, by decide, by decide⟩
  unfold autoSelectLots
  split
  · simp
  · simp only [autoSelectedOf, List.length_take, maxLimitOf]
    omega

/-- Concrete instantiation of `autoSelect_selection_ceiling` at
`q = 100` on an empty inventory. -/
theorem autoSelect_selection_ceiling_witness :
    maxLimitOf 100 = 100 + extraOf 100 ∧
    (autoSelectLots [] demoConfig 100).autoSelected.length ≤ 100 + extraOf 100 ∧
    extraOf 100 = 20 ∧ maxLimitOf 100 = 120 :=
  autoSelect_selection_ceiling [] demoConfig 100 (by decide)

/-! ### Claim C1 -/

/-- Claim C1 counterexample: with 45 AVAILABLE matching lots and
`requested_qty = 50`, the auto-select response reports
`out_of_stock = false` with only 45 auto-selected lots — the selection
falls below the requested quantity without out-of-stock being reported. -/
theorem autoSelect_floor_counterexample :
    (autoSelectLots demoLots45 demoConfig 50).outOfStock = false ∧
    (autoSelectLots demoLots45 demoConfig 50).autoSelected.length = 45 ∧
    45 < 50 := by decide

/-- Claim C1 amended: `out_of_stock = true` exactly when no AVAILABLE lot
matches the query; otherwise `out_of_stock = false` and the auto-selection
is the first `min(maxAllowed, candidates)` lots, which may be fewer than
`requested_qty` (partial fulfilment is reported as a non-error). -/
theorem autoSelect_outOfStock_spec (lots : List Lot) (cfg : SalesConfig) (q : Nat) :
    ((autoSelectLots lots cfg q).outOfStock = true ↔ queryLots lots cfg q = []) ∧
    ((autoSelectLots lots cfg q).outOfStock = false →
      (autoSelectLots lots cfg q).autoSelected.length =
        min (maxLimitOf q) (queryLots lots cfg q).length) := by
  unfold autoSelectLots
  split
  next h => simp_all [List.isEmpty_iff]
  next h =>
    have hne : queryLots lots cfg q ≠ [] := by
      intro hnil
      exact h (by simp [hnil])
    constructor
    · simp [hne]
    · intro _
      show (autoSelectedOf lots cfg q).length = _
      simp only [autoSelectedOf, List.length_take]
      omega

/-- Concrete instantiation of `autoSelect_outOfStock_spec` on the 45-lot
inventory: `out_of_stock = false` and the selection length is
`min(60, 45) = 45`. -/
theorem autoSelect_outOfStock_spec_witness :
    ((autoSelectLots demoLots45 demoConfig 50).outOfStock = true ↔
      queryLots demoLots45 demoConfig 50 = []) ∧
    ((autoSelectLots demoLots45 demoConfig 50).outOfStock = false →
      (autoSelectLots demoLots45 demoConfig 50).autoSelected.length =
        min (maxLimitOf 50) (queryLots demoLots45 demoConfig 50).length) :=
  autoSelect_outOfStock_spec demoLots45 demoConfig 50

/-! ### Claim C2 -/

/-- State with lot 1 already BLOCKED by a concurrent claim and lot 2
still AVAILABLE. -/
def demoStateClaim : DbState :=
  { lots := [{ demoLot 1 with status := LotStatus.blocked }, demoLot 2],
    salesConfigs := [demoConfig], salesRecords := [], lotSelections := [],
    assignments := [], customers := [], audit := [], events := [], nextSalesId := 100 }

/-- Claim C2 counterexample: lot 1 is already BLOCKED when the draft
commit requests lots 1 and 2, yet the commit succeeds (no
Conflict/LotsUnavailable outcome) and lot 2 still transitions
AVAILABLE→BLOCKED — the claim is neither rejected nor all-or-nothing. -/
theorem saveDraft_claim_counterexample :
    ((demoStateClaim.lots.find? (fun l => l.id = 1)).map (fun l => l.status) =
      some LotStatus.blocked) ∧
    ((demoStateClaim.lots.find? (fun l => l.id = 2)).map (fun l => l.status) =
      some LotStatus.available) ∧
    (saveDraft demoStateClaim 1 [1, 2] 7).2 = SaveDraftResult.ok 100 2 ∧
    (((saveDraft demoStateClaim 1 [1, 2] 7).1.lots.find? (fun l => l.id = 2)).map
      (fun l => l.status) = some LotStatus.blocked) := by decide

/-- Claim C2 amended: the draft commit performs no availability check and
has no conflict outcome at all: whenever the sales configuration exists it
succeeds, and it sets the status of every requested lot to BLOCKED
regardless of the lot's prior claim state. -/
theorem saveDraft_blocks_unconditionally (s : DbState) (cfgId : Nat) (sel : List Nat)
    (uid : Nat) (hc : (s.salesConfigs.find? (fun c => c.id = cfgId)).isSome) :
    (saveDraft s cfgId sel uid).2 =
      SaveDraftResult.ok s.nextSalesId (s.lots.filter (fun l => sel.contains l.id)).length ∧
    ∀ l ∈ (saveDraft s cfgId sel uid).1.lots, l.id ∈ sel → l.status = LotStatus.blocked := by
  obtain ⟨cfg, hcfg⟩ := Option.isSome_iff_exists.mp hc
  refine ⟨by simp only [saveDraft, hcfg], ?_⟩
  intro l hl hid
  simp only [saveDraft, hcfg] at hl
  obtain ⟨l0, hl0, rfl⟩ := List.mem_map.mp hl
  by_cases hc0 : sel.contains l0.id = true
  · have hmem : l0.id ∈ sel := by simpa using hc0
    simp [hc0, hmem]
  · simp only [hc0, if_neg, Bool.false_eq_true, ite_false] at hid ⊢
    exact absurd hid (by simpa using hc0)

/-- Concrete instantiation of `saveDraft_blocks_unconditionally` on the
contended two-lot state. -/
theorem saveDraft_blocks_unconditionally_witness :
    (saveDraft demoStateClaim 1 [1, 2] 7).2 =
      SaveDraftResult.ok demoStateClaim.nextSalesId
        (demoStateClaim.lots.filter (fun l => [1, 2].contains l.id)).length ∧
    ∀ l ∈ (saveDraft demoStateClaim 1 [1, 2] 7).1.lots,
      l.id ∈ [1, 2] → l.status = LotStatus.blocked :=
  saveDraft_blocks_unconditionally demoStateClaim 1 [1, 2] 7 (by decide)

/-! ### Claim C8 -/

/-- State with a single AVAILABLE lot and an order requesting 50. -/
def demoStateFloor : DbState :=
  { lots := [demoLot 1], salesConfigs := [demoConfig], salesRecords := [],
    lotSelections := [], assignments := [], customers := [], audit := [],
    events := [], nextSalesId := 100 }

/-- Claim C8 counterexample: with `requested_quantity = 50` the draft
commit of a single lot succeeds — a draft record is created and the lot is
blocked, with no InsufficientSelection rejection at commit. -/
theorem saveDraft_floor_counterexample :
    ((demoStateFloor.salesConfigs.find? (fun c => c.id = 1)).map
      (fun c => c.requestedQuantity) = some 50) ∧
    (saveDraft demoStateFloor 1 [1] 7).2 = SaveDraftResult.ok 100 1 ∧
    (saveDraft demoStateFloor 1 [1] 7).1.salesRecords.length = 1 ∧
    (((saveDraft demoStateFloor 1 [1] 7).1.lots.find? (fun l => l.id = 1)).map
      (fun l => l.status) = some LotStatus.blocked) := by decide

/-- Claim C8 amended: the mandatory selection floor is enforced only by
the separate manual-selection validation route; the draft commit itself
performs no such check — with a selection smaller than the requested
quantity, `manual-lot-selection` rejects with InsufficientSelection while
`save-draft` still succeeds and creates the draft. -/
theorem selection_floor_only_at_validation (s : DbState) (cfgId uid : Nat)
    (sel : List Nat) (cfg : SalesConfig)
    (hc : s.salesConfigs.find? (fun c => c.id = cfgId) = some cfg)
    (hlt : (s.lots.filter (fun l =>
      sel.contains l.id && l.status = LotStatus.available)).length < cfg.requestedQuantity) :
    manualLotSelection s cfgId sel =
      ManualSelectResult.insufficient
        (s.lots.filter (fun l =>
          sel.contains l.id && l.status = LotStatus.available)).length
        cfg.requestedQuantity ∧
    (saveDraft s cfgId sel uid).2 =
      SaveDraftResult.ok s.nextSalesId (s.lots.filter (fun l => sel.contains l.id)).length ∧
    (saveDraft s cfgId sel uid).1.salesRecords.length = s.salesRecords.length + 1 := by
  refine ⟨?_, ?_, ?_⟩
  · simp only [manualLotSelection, hc, if_pos hlt]
  · simp only [saveDraft, hc]
  · simp [saveDraft, hc]

/-- Concrete instantiation of `selection_floor_only_at_validation` on the
one-lot state with `requested_quantity = 50`. -/
theorem selection_floor_only_at_validation_witness :
    manualLotSelection demoStateFloor 1 [1] =
      ManualSelectResult.insufficient
        (demoStateFloor.lots.filter (fun l =>
          [1].contains l.id && l.status = LotStatus.available)).length
        demoConfig.requestedQuantity ∧
    (saveDraft demoStateFloor 1 [1] 7).2 =
      SaveDraftResult.ok demoStateFloor.nextSalesId
        (demoStateFloor.lots.filter (fun l => [1].contains l.id)).length ∧
    (saveDraft demoStateFloor 1 [1] 7).1.salesRecords.length =
      demoStateFloor.salesRecords.length + 1 :=
  selection_floor_only_at_validation demoStateFloor 1 7 [1] demoConfig
    (by decide) (by decide)

/-! ### Claim C9 -/

/-- State with two AVAILABLE lots and no assignment records. -/
def demoStateDraft : DbState :=
  { lots := [demoLot 1, demoLot 2], salesConfigs := [demoConfig], salesRecords := [],
    lotSelections := [], assignments := [], customers := [], audit := [],
    events := [], nextSalesId := 100 }

/-- Claim C9 counterexample: a successful draft commit creates per-lot
selection records with status `SELECTED` and no Assignment records at all
— no PENDING status and no response window are created by the commit
(the order status does become `processing`). -/
theorem saveDraft_no_assignments_counterexample :
    (saveDraft demoStateDraft 1 [1, 2] 7).2 = SaveDraftResult.ok 100 2 ∧
    (saveDraft demoStateDraft 1 [1, 2] 7).1.assignments = [] ∧
    ((saveDraft demoStateDraft 1 [1, 2] 7).1.lotSelections.map (fun sel => sel.status)) =
      ["SELECTED", "SELECTED"] ∧
    ((saveDraft demoStateDraft 1 [1, 2] 7).1.salesConfigs.map (fun c => c.status)) =
      ["processing"] := by decide

/-- Claim C9 amended: a successful draft commit creates the Draft with
status `DRAFT`, one lot-selection record per claimed lot with status
`SELECTED`, and sets the order's status to `processing`; it creates no
PENDING Assignment records and no response windows (those are left to the
external notification workflow). -/
theorem saveDraft_creates_draft_and_selections (s : DbState) (cfgId uid : Nat)
    (sel : List Nat) (cfg : SalesConfig)
    (hc : s.salesConfigs.find? (fun c => c.id = cfgId) = some cfg) :
    (saveDraft s cfgId sel uid).1.assignments = s.assignments ∧
    (saveDraft s cfgId sel uid).1.salesRecords =
      s.salesRecords ++
        [{ id := s.nextSalesId, salesConfigId := cfgId,
           totalBales := (s.lots.filter (fun l => sel.contains l.id)).length,
           totalValue := (s.lots.filter (fun l => sel.contains l.id)).foldl
             (fun a l => a + l.bidPrice) 0,
           brokerCommission := ((s.lots.filter (fun l => sel.contains l.id)).foldl
             (fun a l => a + l.bidPrice) 0) * cfg.brokerCommissionRate / 100,
           status := "DRAFT", createdBy := uid }] ∧
    (saveDraft s cfgId sel uid).1.lotSelections =
      s.lotSelections ++
        (s.lots.filter (fun l => sel.contains l.id)).map (fun l =>
          { salesId := s.nextSalesId, inventoryId := l.id, lotNumber := l.lotNumber,
            indentNumber := l.indentNumber, quantity := 1, price := l.bidPrice,
            status := "SELECTED" }) ∧
    (∀ c ∈ (saveDraft s cfgId sel uid).1.salesConfigs,
      c.id = cfgId → c.status = "processing") := by
  refine ⟨by simp only [saveDraft, hc], by simp only [saveDraft, hc],
    by simp only [saveDraft, hc], ?_⟩
  intro c hcmem hcid
  simp only [saveDraft, hc] at hcmem
  obtain ⟨c0, hc0, rfl⟩ := List.mem_map.mp hcmem
  by_cases hid : c0.id = cfgId
  · simp [hid]
  · simp only [hid, if_neg, ite_false] at hcid ⊢

/-- Concrete instantiation of `saveDraft_creates_draft_and_selections` on
the two-lot state. -/
theorem saveDraft_creates_draft_and_selections_witness :
    (saveDraft demoStateDraft 1 [1, 2] 7).1.assignments = demoStateDraft.assignments ∧
    (saveDraft demoStateDraft 1 [1, 2] 7).1.salesRecords =
      demoStateDraft.salesRecords ++
        [{ id := demoStateDraft.nextSalesId, salesConfigId := 1,
           totalBales := (demoStateDraft.lots.filter (fun l => [1, 2].contains l.id)).length,
           totalValue := (demoStateDraft.lots.filter (fun l => [1, 2].contains l.id)).foldl
             (fun a l => a + l.bidPrice) 0,
           brokerCommission := ((demoStateDraft.lots.filter (fun l => [1, 2].contains l.id)).foldl
             (fun a l => a + l.bidPrice) 0) * demoConfig.brokerCommissionRate / 100,
           status := "DRAFT", createdBy := 7 }] ∧
    (saveDraft demoStateDraft 1 [1, 2] 7).1.lotSelections =
      demoStateDraft.lotSelections ++
        (demoStateDraft.lots.filter (fun l => [1, 2].contains l.id)).map (fun l =>
          { salesId := demoStateDraft.nextSalesId, inventoryId := l.id,
            lotNumber := l.lotNumber, indentNumber := l.indentNumber, quantity := 1,
            price := l.bidPrice, status := "SELECTED" }) ∧
    (∀ c ∈ (saveDraft demoStateDraft 1 [1, 2] 7).1.salesConfigs,
      c.id = 1 → c.status = "processing") :=
  saveDraft_creates_draft_and_selections demoStateDraft 1 7 [1, 2] demoConfig (by decide)

/-! ### Helper lemmas -/

/-- List lookup `find?` commutes with a map whose function preserves the searched
predicate. -/
theorem find?_map_of_pred {α : Type} (p : α → Bool) (f : α → α)
    (hf : ∀ a, p (f a) = p a) (l : List α) :
    (l.map f).find? p = (l.find? p).map f := by
  induction l with
  | nil => rfl
  | cons x xs ih =>
    simp only [List.map_cons, List.find?_cons, hf]
    cases hp : p x <;> simp [hp, ih]

/-- The confirmation trigger only appends events and audit rows: it never
changes lots, assignments, drafts or order configurations. -/
theorem checkAndTrigger_preserves (s : DbState) (salesId uid : Nat) :
    (checkAndTriggerConfirmation s salesId uid).assignments = s.assignments ∧
    (checkAndTriggerConfirmation s salesId uid).lots = s.lots ∧
    (checkAndTriggerConfirmation s salesId uid).salesRecords = s.salesRecords ∧
    (checkAndTriggerConfirmation s salesId uid).salesConfigs = s.salesConfigs := by
  unfold checkAndTriggerConfirmation
  split
  · exact ⟨rfl, rfl, rfl, rfl⟩
  · split
    · exact ⟨rfl, rfl, rfl, rfl⟩
    · split
      · exact ⟨rfl, rfl, rfl, rfl⟩
      · exact ⟨rfl, rfl, rfl, rfl⟩

/-! ### Assignment fixtures -/

/-- A PENDING assignment bound to customer 5 for sales order 10, with a
response window ending on day 100. -/
def demoAsg (i : Nat) : Assignment :=
  { id := i, customerId := 5, inventoryId := i, salesId := 10,
    lotStatus := AsgStatus.pending, windowEndDate := 100,
    respondedBy := none, respondedAt := none }

/-- The customer user bound to the demo assignments. -/
def demoUser : User := { id := 5, role := "customer", email := 50 }

/-- An order configuration requiring a single accepted lot. -/
def demoConfigOne : SalesConfig := { demoConfig with requestedQuantity := 1 }

/-- The sales draft record the demo assignments belong to. -/
def demoDraftRec : SalesRecord :=
  { id := 10, salesConfigId := 1, totalBales := 2, totalValue := 20,
    brokerCommission := 0, status := "DRAFT", createdBy := 7 }

/-- State for the confirmation claims: an order requiring one accepted
lot, with two PENDING assignments on blocked lots. -/
def demoStateAccept : DbState :=
  { lots := [{ demoLot 1 with status := LotStatus.blocked },
             { demoLot 2 with status := LotStatus.blocked }],
    salesConfigs := [demoConfigOne], salesRecords := [demoDraftRec],
    lotSelections := [], assignments := [demoAsg 1, demoAsg 2],
    customers := [], audit := [], events := [], nextSalesId := 200 }

/-- A response instant well inside the demo window. -/
def demoNow : Time := ⟨50, 0⟩

/-! ### Claim C3 -/

/-- Claim C3 counterexample: the order requires one accepted lot; two
successive accepts each push the accepted count to or past the threshold
and each emits a confirmation event — two events for one order, because
the trigger neither checks that the draft is still `DRAFT` nor
transitions it to `CONFIRMED`. -/
theorem confirmation_fires_twice_counterexample :
    (acceptLot demoStateAccept 1 demoUser demoNow).2 = RespondResult.ok ∧
    (acceptLot (acceptLot demoStateAccept 1 demoUser demoNow).1 2 demoUser demoNow).2 =
      RespondResult.ok ∧
    ((acceptLot (acceptLot demoStateAccept 1 demoUser demoNow).1 2 demoUser demoNow).1.events.filter
      (Event.isConfirmFor 10)).length = 2 := by decide

/-- Claim C3 amended: the confirmation trigger emits an outbound event
whenever the accepted-lot count has reached the required quantity,
regardless of the draft's status and however often it already fired; it
performs no DRAFT→CONFIRMED and no order-COMPLETED transition, so each
accept at or past the threshold emits a further event. -/
theorem checkAndTrigger_no_idempotency_guard (s : DbState) (salesId uid : Nat)
    (sr : SalesRecord) (cfg : SalesConfig)
    (hr : s.salesRecords.find? (fun r => r.id = salesId) = some sr)
    (hcfg : s.salesConfigs.find? (fun c => c.id = sr.salesConfigId) = some cfg)
    (hge : cfg.requestedQuantity ≤ (s.assignments.filter (fun a =>
      a.salesId = salesId && a.lotStatus = AsgStatus.accepted)).length) :
    (checkAndTriggerConfirmation s salesId uid).events =
      s.events ++ [Event.confirmationWebhook salesId
        (s.assignments.filter (fun a =>
          a.salesId = salesId && a.lotStatus = AsgStatus.accepted)).length
        cfg.requestedQuantity] ∧
    (checkAndTriggerConfirmation s salesId uid).salesRecords = s.salesRecords ∧
    (checkAndTriggerConfirmation s salesId uid).salesConfigs = s.salesConfigs := by
  refine ⟨?_, ?_, ?_⟩ <;>
    simp only [checkAndTriggerConfirmation, hr, hcfg, if_pos hge]

/-- State after the first demo accept was recorded: one ACCEPTED and one
PENDING assignment. -/
def demoStateAccepted : DbState :=
  { demoStateAccept with
      assignments := [{ demoAsg 1 with lotStatus := AsgStatus.accepted }, demoAsg 2] }

/-- Concrete instantiation of `checkAndTrigger_no_idempotency_guard`: one
accepted lot already meets the threshold of one, so evaluating the trigger
emits (another) event while the draft stays `DRAFT`. -/
theorem checkAndTrigger_no_idempotency_guard_witness :
    (checkAndTriggerConfirmation demoStateAccepted 10 5).events =
      demoStateAccepted.events ++ [Event.confirmationWebhook 10
        (demoStateAccepted.assignments.filter (fun a =>
          a.salesId = 10 && a.lotStatus = AsgStatus.accepted)).length
        demoConfigOne.requestedQuantity] ∧
    (checkAndTriggerConfirmation demoStateAccepted 10 5).salesRecords =
      demoStateAccepted.salesRecords ∧
    (checkAndTriggerConfirmation demoStateAccepted 10 5).salesConfigs =
      demoStateAccepted.salesConfigs :=
  checkAndTrigger_no_idempotency_guard demoStateAccepted 10 5 demoDraftRec demoConfigOne
    (by decide) (by decide) (by decide)

/-! ### Claim C4 -/

/-- An EXPIRED assignment whose window ended on day 10. -/
def demoAsgExpired : Assignment :=
  { demoAsg 1 with lotStatus := AsgStatus.expired, windowEndDate := 10 }

/-- State holding only the expired assignment. -/
def demoStateTerminal : DbState :=
  { demoStateAccept with assignments := [demoAsgExpired] }

/-- Claim C4 counterexample: responding to an EXPIRED assignment whose
window has passed fails with the window-expired error, not with
AlreadyResolved — the window check runs before the already-responded
check.  The state is still unchanged. -/
theorem respond_terminal_error_counterexample :
    (acceptLot demoStateTerminal 1 demoUser ⟨20, 0⟩).2 = RespondResult.windowExpired ∧
    ¬ (acceptLot demoStateTerminal 1 demoUser ⟨20, 0⟩).2 = RespondResult.alreadyResolved ∧
    (acceptLot demoStateTerminal 1 demoUser ⟨20, 0⟩).1 = demoStateTerminal ∧
    (rejectLot demoStateTerminal 1 demoUser ⟨20, 0⟩).2 = RespondResult.windowExpired ∧
    (rejectLot demoStateTerminal 1 demoUser ⟨20, 0⟩).1 = demoStateTerminal := by decide

/-- Claim C4 amended: a respond call on a terminal (non-PENDING)
assignment by its bound customer always fails and never changes any
state; the error is AlreadyResolved when the current date is still within
the window, but WindowExpired when the window end has passed, because the
window check precedes the already-responded check. -/
theorem respond_terminal_never_changes_state (s : DbState) (aid : Nat) (u : User)
    (now : Time) (asg : Assignment)
    (hfind : s.assignments.find? (fun a => a.id = aid) = some asg)
    (hown : resolveCustomerId s u = some asg.customerId)
    (hterm : asg.lotStatus ≠ AsgStatus.pending) :
    (acceptLot s aid u now).1 = s ∧ (rejectLot s aid u now).1 = s ∧
    (acceptLot s aid u now).2 =
      (if asg.windowEndDate < now.day then RespondResult.windowExpired
       else RespondResult.alreadyResolved) ∧
    (rejectLot s aid u now).2 =
      (if asg.windowEndDate < now.day then RespondResult.windowExpired
       else RespondResult.alreadyResolved) := by
  have hno : ¬ (resolveCustomerId s u ≠ some asg.customerId) := by simp [hown]
  by_cases hw : asg.windowEndDate < currentDateOf now
  · have hw' : asg.windowEndDate < now.day := hw
    refine ⟨?_, ?_, ?_, ?_⟩ <;>
      simp only [acceptLot, rejectLot, hfind, if_neg hno, if_pos hw, if_pos hw']
  · have hw' : ¬ asg.windowEndDate < now.day := hw
    refine ⟨?_, ?_, ?_, ?_⟩ <;>
      simp only [acceptLot, rejectLot, hfind, if_neg hno, if_neg hw, if_pos hterm,
        if_neg hw']

/-- An ACCEPTED assignment still within its window. -/
def demoAsgResolved : Assignment := { demoAsg 1 with lotStatus := AsgStatus.accepted }

/-- State holding only the resolved assignment. -/
def demoStateResolved : DbState :=
  { demoStateAccept with assignments := [demoAsgResolved] }

/-- Concrete instantiation of `respond_terminal_never_changes_state` on an
ACCEPTED assignment within its window: both responds fail with
AlreadyResolved and change nothing. -/
theorem respond_terminal_never_changes_state_witness :
    (acceptLot demoStateResolved 1 demoUser demoNow).1 = demoStateResolved ∧
    (rejectLot demoStateResolved 1 demoUser demoNow).1 = demoStateResolved ∧
    (acceptLot demoStateResolved 1 demoUser demoNow).2 =
      (if demoAsgResolved.windowEndDate < demoNow.day then RespondResult.windowExpired
       else RespondResult.alreadyResolved) ∧
    (rejectLot demoStateResolved 1 demoUser demoNow).2 =
      (if demoAsgResolved.windowEndDate < demoNow.day then RespondResult.windowExpired
       else RespondResult.alreadyResolved) :=
  respond_terminal_never_changes_state demoStateResolved 1 demoUser demoNow demoAsgResolved
    (by decide) (by decide) (by decide)

/-! ### Claim C5 -/

/-- Claim C5: a successful respond on a PENDING assignment within its
window by the bound customer records the decision with actor and
timestamp; accept marks the lot SOLD and hands off to the confirmation
trigger for the assignment's order, reject releases the lot to AVAILABLE
and never invokes the trigger (its events are unchanged). -/
theorem respond_success_effects (s : DbState) (aid : Nat) (u : User) (now : Time)
    (asg : Assignment)
    (hfind : s.assignments.find? (fun a => a.id = aid) = some asg)
    (hown : resolveCustomerId s u = some asg.customerId)
    (hwin : ¬ asg.windowEndDate < currentDateOf now)
    (hpend : asg.lotStatus = AsgStatus.pending) :
    acceptLot s aid u now =
      (checkAndTriggerConfirmation (applyAccept s aid asg u now) asg.salesId u.id,
       RespondResult.ok) ∧
    (acceptLot s aid u now).1.assignments.find? (fun a => a.id = aid) =
      some { asg with
               lotStatus := AsgStatus.accepted,
               respondedBy := some u.id,
               respondedAt := some now } ∧
    (∀ l ∈ (acceptLot s aid u now).1.lots,
      l.id = asg.inventoryId → l.status = LotStatus.sold) ∧
    rejectLot s aid u now = (applyReject s aid asg u now, RespondResult.ok) ∧
    (rejectLot s aid u now).1.assignments.find? (fun a => a.id = aid) =
      some { asg with
               lotStatus := AsgStatus.rejected,
               respondedBy := some u.id,
               respondedAt := some now } ∧
    (∀ l ∈ (rejectLot s aid u now).1.lots,
      l.id = asg.inventoryId → l.status = LotStatus.available) ∧
    (rejectLot s aid u now).1.events = s.events := by
  have hno : ¬ (resolveCustomerId s u ≠ some asg.customerId) := by simp [hown]
  have hnp : ¬ (asg.lotStatus ≠ AsgStatus.pending) := by simp [hpend]
  have hacc : acceptLot s aid u now =
      (checkAndTriggerConfirmation (applyAccept s aid asg u now) asg.salesId u.id,
       RespondResult.ok) := by
    simp only [acceptLot, hfind, if_neg hno, if_neg hwin, if_neg hnp]
  have hrej : rejectLot s aid u now = (applyReject s aid asg u now, RespondResult.ok) := by
    simp only [rejectLot, hfind, if_neg hno, if_neg hwin, if_neg hnp]
  have hid : asg.id = aid := by simpa using List.find?_some hfind
  refine ⟨hacc, ?_, ?_, hrej, ?_, ?_, ?_⟩
  · rw [hacc]
    show (checkAndTriggerConfirmation (applyAccept s aid asg u now)
      asg.salesId u.id).assignments.find? _ = _
    rw [(checkAndTrigger_preserves (applyAccept s aid asg u now) asg.salesId u.id).1]
    show (s.assignments.map _).find? _ = _
    rw [find?_map_of_pred _ _
      (fun a => by by_cases h : a.id = aid <;> simp [h]) s.assignments, hfind]
    simp [hid]
  · rw [hacc]
    intro l hl hlid
    replace hl : l ∈ (applyAccept s aid asg u now).lots := by
      rwa [(checkAndTrigger_preserves (applyAccept s aid asg u now) asg.salesId u.id).2.1]
        at hl
    obtain ⟨l0, hl0, rfl⟩ := List.mem_map.mp hl
    by_cases h : l0.id = asg.inventoryId
    · simp [h]
    · simp only [h, if_neg, ite_false] at hlid ⊢
  · rw [hrej]
    show (s.assignments.map _).find? _ = _
    rw [find?_map_of_pred _ _
      (fun a => by by_cases h : a.id = aid <;> simp [h]) s.assignments, hfind]
    simp [hid]
  · rw [hrej]
    intro l hl hlid
    obtain ⟨l0, hl0, rfl⟩ := List.mem_map.mp hl
    by_cases h : l0.id = asg.inventoryId
    · simp [h]
    · simp only [h, if_neg, ite_false] at hlid ⊢
  · rw [hrej]
    rfl

/-- Concrete instantiation of `respond_success_effects` on the demo
two-assignment state at an instant inside the window. -/
theorem respond_success_effects_witness :
    acceptLot demoStateAccept 1 demoUser demoNow =
      (checkAndTriggerConfirmation (applyAccept demoStateAccept 1 (demoAsg 1) demoUser demoNow)
        (demoAsg 1).salesId demoUser.id, RespondResult.ok) ∧
    (acceptLot demoStateAccept 1 demoUser demoNow).1.assignments.find? (fun a => a.id = 1) =
      some { demoAsg 1 with
               lotStatus := AsgStatus.accepted,
               respondedBy := some demoUser.id,
               respondedAt := some demoNow } ∧
    (∀ l ∈ (acceptLot demoStateAccept 1 demoUser demoNow).1.lots,
      l.id = (demoAsg 1).inventoryId → l.status = LotStatus.sold) ∧
    rejectLot demoStateAccept 1 demoUser demoNow =
      (applyReject demoStateAccept 1 (demoAsg 1) demoUser demoNow, RespondResult.ok) ∧
    (rejectLot demoStateAccept 1 demoUser demoNow).1.assignments.find? (fun a => a.id = 1) =
      some { demoAsg 1 with
               lotStatus := AsgStatus.rejected,
               respondedBy := some demoUser.id,
               respondedAt := some demoNow } ∧
    (∀ l ∈ (rejectLot demoStateAccept 1 demoUser demoNow).1.lots,
      l.id = (demoAsg 1).inventoryId → l.status = LotStatus.available) ∧
    (rejectLot demoStateAccept 1 demoUser demoNow).1.events = demoStateAccept.events :=
  respond_success_effects demoStateAccept 1 demoUser demoNow (demoAsg 1)
    (by decide) (by decide) (by decide) (by decide)

/-! ### Claim C6 -/

/-- Claim C6: an assignment whose window end is in the past cannot be
accepted even before the expiry sweep runs — respond fails with the
window-expired error and changes nothing; and once the sweep processes
the customer, a PENDING past-window assignment is EXPIRED with its lot
back to AVAILABLE. -/
theorem expiry_correctness (s : DbState) (aid : Nat) (u : User) (now : Time)
    (asg : Assignment)
    (hfind : s.assignments.find? (fun a => a.id = aid) = some asg)
    (hown : resolveCustomerId s u = some asg.customerId)
    (hpast : asg.windowEndDate < currentDateOf now) :
    (acceptLot s aid u now).2 = RespondResult.windowExpired ∧
    (acceptLot s aid u now).1 = s ∧
    (asg.lotStatus = AsgStatus.pending →
      (sweepExpire s asg.customerId now).assignments.find? (fun a => a.id = aid) =
        some { asg with lotStatus := AsgStatus.expired, respondedAt := some now } ∧
      ∀ l ∈ (sweepExpire s asg.customerId now).lots,
        l.id = asg.inventoryId → l.status = LotStatus.available) := by
  have hno : ¬ (resolveCustomerId s u ≠ some asg.customerId) := by simp [hown]
  have h1 : acceptLot s aid u now = (s, RespondResult.windowExpired) := by
    simp only [acceptLot, hfind, if_neg hno, if_pos hpast]
  refine ⟨by rw [h1], by rw [h1], ?_⟩
  intro hpend
  have hmem : asg ∈ s.assignments := List.mem_of_find?_eq_some hfind
  have hexp : asg ∈ expiredOf s asg.customerId now :=
    List.mem_filter.mpr ⟨hmem, by simp [hpend, hpast]⟩
  have hidc : ((expiredOf s asg.customerId now).map (fun e => e.id)).contains asg.id = true := by
    simp only [List.contains_iff_exists_mem_beq]
    exact ⟨asg.id, List.mem_map.mpr ⟨asg, hexp, rfl⟩, by simp⟩
  have hinvc : ((expiredOf s asg.customerId now).map
      (fun e => e.inventoryId)).contains asg.inventoryId = true := by
    simp only [List.contains_iff_exists_mem_beq]
    exact ⟨asg.inventoryId, List.mem_map.mpr ⟨asg, hexp, rfl⟩, by simp⟩
  constructor
  · show (s.assignments.map _).find? _ = _
    rw [find?_map_of_pred _ _
      (fun a => by
        by_cases h : ((expiredOf s asg.customerId now).map (fun e => e.id)).contains a.id = true
        · rw [if_pos h]
        · rw [if_neg h]) s.assignments, hfind]
    exact congrArg some (if_pos hidc)
  · intro l hl hlid
    obtain ⟨l0, hl0, rfl⟩ := List.mem_map.mp hl
    by_cases h : ((expiredOf s asg.customerId now).map
        (fun e => e.inventoryId)).contains l0.id = true
    · rw [if_pos h]
    · exfalso
      rw [if_neg h] at hlid
      apply h
      rw [hlid]
      exact hinvc

/-- A PENDING assignment whose window ended on day 10, before the demo
response instant on day 50. -/
def demoAsgPast : Assignment := { demoAsg 1 with windowEndDate := 10 }

/-- State holding the past-window PENDING assignment on a blocked lot. -/
def demoStatePast : DbState :=
  { demoStateAccept with assignments := [demoAsgPast] }

/-- Concrete instantiation of `expiry_correctness` on the past-window
PENDING assignment at day 50. -/
theorem expiry_correctness_witness :
    (acceptLot demoStatePast 1 demoUser demoNow).2 = RespondResult.windowExpired ∧
    (acceptLot demoStatePast 1 demoUser demoNow).1 = demoStatePast ∧
    (demoAsgPast.lotStatus = AsgStatus.pending →
      (sweepExpire demoStatePast demoAsgPast.customerId demoNow).assignments.find?
        (fun a => a.id = 1) =
        some { demoAsgPast with lotStatus := AsgStatus.expired, respondedAt := some demoNow } ∧
      ∀ l ∈ (sweepExpire demoStatePast demoAsgPast.customerId demoNow).lots,
        l.id = demoAsgPast.inventoryId → l.status = LotStatus.available) :=
  expiry_correctness demoStatePast 1 demoUser demoNow demoAsgPast
    (by decide) (by decide) (by decide)

/-! ### Claim C10 -/

/-- Claim C10: the response-window check in accept and reject compares
calendar dates only — a respond made at any second of the day whose date
equals the assignment's window end date passes the check (and succeeds on
a PENDING assignment), the window-expired error occurs exactly when the
current date is strictly after the window end date, and the lots listing
classifies a PENDING assignment as active when the current date equals
the window end date. -/
theorem window_check_calendar_date (s : DbState) (aid : Nat) (u : User) (sec : Nat)
    (asg : Assignment)
    (hfind : s.assignments.find? (fun a => a.id = aid) = some asg)
    (hown : resolveCustomerId s u = some asg.customerId)
    (hpend : asg.lotStatus = AsgStatus.pending) :
    (acceptLot s aid u ⟨asg.windowEndDate, sec⟩).2 = RespondResult.ok ∧
    (rejectLot s aid u ⟨asg.windowEndDate, sec⟩).2 = RespondResult.ok ∧
    (∀ d : Nat, (acceptLot s aid u ⟨d, sec⟩).2 = RespondResult.windowExpired ↔
      asg.windowEndDate < d) ∧
    asg ∈ listingActive s asg.customerId ⟨asg.windowEndDate, sec⟩ := by
  have hno : ¬ (resolveCustomerId s u ≠ some asg.customerId) := by simp [hown]
  have hnp : ¬ (asg.lotStatus ≠ AsgStatus.pending) := by simp [hpend]
  have hwin : ¬ asg.windowEndDate < currentDateOf ⟨asg.windowEndDate, sec⟩ := by
    simp [currentDateOf]
  refine ⟨?_, ?_, ?_, ?_⟩
  · simp only [acceptLot, hfind, if_neg hno, if_neg hwin, if_neg hnp]
  · simp only [rejectLot, hfind, if_neg hno, if_neg hwin, if_neg hnp]
  · intro d
    constructor
    · intro hres
      by_contra hnd
      have hnd' : ¬ asg.windowEndDate < currentDateOf ⟨d, sec⟩ := hnd
      simp only [acceptLot, hfind, if_neg hno, if_neg hnd', if_neg hnp] at hres
      exact absurd hres (by decide)
    · intro hd
      have hd' : asg.windowEndDate < currentDateOf ⟨d, sec⟩ := hd
      simp only [acceptLot, hfind, if_neg hno, if_pos hd']
  · have hmem : asg ∈ s.assignments := List.mem_of_find?_eq_some hfind
    unfold listingActive
    refine List.mem_filter.mpr ⟨List.mem_filter.mpr ⟨hmem, by simp⟩, ?_⟩
    simp [hpend, currentDateOf]

/-- Concrete instantiation of `window_check_calendar_date` at second
12345 of the window-end day of the demo assignment. -/
theorem window_check_calendar_date_witness :
    (acceptLot demoStateAccept 1 demoUser ⟨(demoAsg 1).windowEndDate, 12345⟩).2 =
      RespondResult.ok ∧
    (rejectLot demoStateAccept 1 demoUser ⟨(demoAsg 1).windowEndDate, 12345⟩).2 =
      RespondResult.ok ∧
    (∀ d : Nat, (acceptLot demoStateAccept 1 demoUser ⟨d, 12345⟩).2 =
      RespondResult.windowExpired ↔ (demoAsg 1).windowEndDate < d) ∧
    demoAsg 1 ∈ listingActive demoStateAccept (demoAsg 1).customerId
      ⟨(demoAsg 1).windowEndDate, 12345⟩ :=
  window_check_calendar_date demoStateAccept 1 demoUser 12345 (demoAsg 1)
    (by decide) (by decide) (by decide)

end Katha
